import Mathlib

/-!
Verification of the compute-API core of `rust-openstack` (`src/compute/base.rs`):
API-version negotiation (`pick_compute_api_version`, `supports_compute_api_version`),
the identifier-or-name lookup resolver (`get_flavor`, `get_server` and their
`_by_id` / `_by_name` halves), keypair creation version gating (`create_keypair`)
and action dispatch (`server_action_with_args`, `server_simple_action`).

Fallible operations are embedded as `Except OsError`; the `?` operator and
`and_then` chains of the Rust source become explicit `match`es on the result.
Collaborators that live outside the verified source (the session transport, the
service-discovery registry, `utils::one`, `ResultExt::if_not_found_then`, the
protocol structs) are modelled from the specification and marked as such.
-/

namespace Openstack

/-- Modelled from the spec: `ApiVersion` (in `common`, outside the verified
source) is an ordered pair (major, minor) with the lexicographic total order:
compare major first, then minor. -/
structure ApiVersion where
  major : Nat
  minor : Nat
deriving Repr, DecidableEq

/-- Lexicographic order on `ApiVersion`: major first, then minor. -/
def ApiVersion.le (a b : ApiVersion) : Bool :=
  decide (a.major < b.major) || (decide (a.major = b.major) && decide (a.minor ≤ b.minor))

/-- Error kinds of the spec's error model (§7): `NotFound` covers both the
direct-fetch not-found signal and the zero-matches condition;
`AmbiguousResult` is the "too many" condition; `DiscoveryError` means the
supported-version metadata could not be obtained; `TransportError` and
`DecodeError` are the remaining collaborator failures. -/
inductive ErrorKind where
  | notFound
  | ambiguousResult
  | discoveryError
  | transportError
  | decodeError
deriving Repr, DecidableEq

/-- An error: a kind together with a human-readable message. -/
structure OsError where
  kind : ErrorKind
  message : String
deriving Repr, DecidableEq

/-- Modelled from the spec: the Version Registry's `SupportedVersionSet` — the
set of `ApiVersion` values the remote endpoint advertises as supported,
obtained once per session from service discovery (`ServiceInfo` lives outside
the verified source). -/
structure ServiceInfo where
  supported : List ApiVersion
deriving Repr, DecidableEq

/-- Modelled from the spec: membership test of the supported-version set
("is revision X supported"). -/
def ServiceInfo.supports_api_version (info : ServiceInfo) (v : ApiVersion) : Bool :=
  info.supported.contains v

/-- Modelled from the spec: a summary record (identifier and name) as returned
by the listing endpoints (`common::protocol::IdAndName`, outside the verified
source). -/
structure IdAndName where
  id : String
  name : String
deriving Repr, DecidableEq

/-- Modelled from the spec: the fully fetched flavor resource
(`protocol::Flavor`, outside the verified source); the resolver treats it
opaquely, so only identifying fields are kept. -/
structure Flavor where
  id : String
  name : String
deriving Repr, DecidableEq

/-- Modelled from the spec: the fully fetched server resource
(`protocol::Server`, outside the verified source). -/
structure Server where
  id : String
  name : String
deriving Repr, DecidableEq

/-- Modelled from the spec: a key pair resource (`protocol::KeyPair`, outside
the verified source). -/
structure KeyPair where
  name : String
deriving Repr, DecidableEq

/-- Modelled from the spec: a key pair creation request
(`protocol::KeyPairCreate`, outside the verified source); `key_type` is the
optional field gated on API version 2.2. -/
structure KeyPairCreate where
  name : String
  key_type : Option String
deriving Repr, DecidableEq

/-- A JSON argument payload for server actions; `null` embeds
`serde_json::Value::Null`. -/
inductive Json where
  | null
  | str (s : String)
deriving Repr, DecidableEq

/-- Modelled from the spec: the transport/session collaborator interface (§6).
Each field is one decoded HTTP round trip the core performs: `serviceInfo` is
`get_service_info_ref` (discovery, may fail with a `DiscoveryError`);
`fetchFlavor`/`fetchServer` are GET by identifier with an optional version
header; `listFlavors` is GET of the flavors listing; `listServersByName` is
GET of the servers listing with a server-side `name` query;
`postKeypair` posts a keypair creation body with an optional version header;
`postServerAction` posts a body to the given path segments. -/
structure Session where
  serviceInfo : Except OsError ServiceInfo
  fetchFlavor : String → Option ApiVersion → Except OsError Flavor
  listFlavors : Except OsError (List IdAndName)
  fetchServer : String → Option ApiVersion → Except OsError Server
  listServersByName : String → Except OsError (List IdAndName)
  postKeypair : KeyPairCreate → Option ApiVersion → Except OsError KeyPair
  postServerAction : List String → List (String × Json) → Except OsError Unit

def API_VERSION_KEYPAIR_TYPE : ApiVersion := ⟨2, 2⟩

def API_VERSION_SERVER_DESCRIPTION : ApiVersion := ⟨2, 19⟩

def API_VERSION_KEYPAIR_PAGINATION : ApiVersion := ⟨2, 35⟩

def API_VERSION_FLAVOR_DESCRIPTION : ApiVersion := ⟨2, 55⟩

def API_VERSION_FLAVOR_EXTRA_SPECS : ApiVersion := ⟨2, 61⟩

/-- Running maximum of a left-to-right scan, embedding `Iterator::max` (ties
keep the later element). -/
def maxFrom (m : ApiVersion) : List ApiVersion → ApiVersion
  | [] => m
  | v :: rest => maxFrom (if ApiVersion.le m v then v else m) rest

/-- `Iterator::max`: `none` on the empty iterator, otherwise the maximum. -/
def listMax : List ApiVersion → Option ApiVersion
  | [] => none
  | v :: rest => some (maxFrom v rest)

/-- `pick_compute_api_version` (base.rs:350-357): obtain the service info via
discovery (propagating its error), filter the candidates to the supported
ones, and return their maximum (or `none`). -/
def pick_compute_api_version (s : Session) (versions : List ApiVersion) :
    Except OsError (Option ApiVersion) :=
  match s.serviceInfo with
  | .error e => .error e
  | .ok info => .ok (listMax (versions.filter fun item => info.supports_api_version item))

/-- `supports_compute_api_version` (base.rs:384-387): obtain the service info
via discovery (propagating its error) and test membership. -/
def supports_compute_api_version (s : Session) (version : ApiVersion) :
    Except OsError Bool :=
  match s.serviceInfo with
  | .error e => .error e
  | .ok info => .ok (info.supports_api_version version)

/-- `supports_keypair_pagination` (base.rs:130-132): delegates to
`supports_compute_api_version` at version 2.35. -/
def supports_keypair_pagination (s : Session) : Except OsError Bool :=
  supports_compute_api_version s API_VERSION_KEYPAIR_PAGINATION

/-- `flavor_api_version` (base.rs:141-146): negotiate among the
flavor-description (2.55) and flavor-extra-specs (2.61) gates. -/
def flavor_api_version (s : Session) : Except OsError (Option ApiVersion) :=
  pick_compute_api_version s
    [API_VERSION_FLAVOR_DESCRIPTION, API_VERSION_FLAVOR_EXTRA_SPECS]

/-- Modelled from the spec: `utils::one` (outside the verified source), the
step-3 cardinality check — zero items fail with the not-found kind and the
first message, exactly one item succeeds, two or more items fail with the
ambiguous-result ("too many") kind and the second message. -/
def one {α : Type} (items : List α) (msgOnEmpty msgOnMany : String) :
    Except OsError α :=
  match items with
  | [] => .error ⟨.notFound, msgOnEmpty⟩
  | [x] => .ok x
  | _ => .error ⟨.ambiguousResult, msgOnMany⟩

/-- Modelled from the spec: `ResultExt::if_not_found_then` (outside the
verified source) — run the fallback only when the first result failed with
the distinguished not-found condition; any other error propagates unchanged. -/
def if_not_found_then {α : Type} (r : Except OsError α)
    (fallback : Unit → Except OsError α) : Except OsError α :=
  match r with
  | .ok v => .ok v
  | .error e => if e.kind = .notFound then fallback () else .error e

/-- `get_flavor_by_id` (base.rs:208-217): negotiate the flavor version and GET
the flavor by identifier with it. -/
def get_flavor_by_id (s : Session) (id : String) : Except OsError Flavor :=
  match flavor_api_version s with
  | .error e => .error e
  | .ok version => s.fetchFlavor id version

/-- `get_flavor_by_name` (base.rs:219-233): GET the flavors listing (no
version), filter client-side by exact name equality, apply the
exactly-one check, then re-fetch the full flavor by the match's identifier. -/
def get_flavor_by_name (s : Session) (name : String) : Except OsError Flavor :=
  match s.listFlavors with
  | .error e => .error e
  | .ok flavors =>
    match one (flavors.filter fun item => item.name == name)
        "Flavor with given name or ID not found"
        "Too many flavors found with given name" with
    | .error e => .error e
    | .ok item => get_flavor_by_id s item.id

/-- `get_flavor` (base.rs:56-60): try the identifier fetch, falling back to
name resolution only on the not-found condition. -/
def get_flavor (s : Session) (id_or_name : String) : Except OsError Flavor :=
  if_not_found_then (get_flavor_by_id s id_or_name)
    (fun _ => get_flavor_by_name s id_or_name)

/-- `get_server_by_id` (base.rs:246-255): negotiate the server-description
version (2.19) and GET the server by identifier with it. -/
def get_server_by_id (s : Session) (id : String) : Except OsError Server :=
  match pick_compute_api_version s [API_VERSION_SERVER_DESCRIPTION] with
  | .error e => .error e
  | .ok version => s.fetchServer id version

/-- `get_server_by_name` (base.rs:257-272): GET the servers listing with a
server-side name query, filter client-side by exact name equality, apply the
exactly-one check, then re-fetch the full server by the match's identifier. -/
def get_server_by_name (s : Session) (name : String) : Except OsError Server :=
  match s.listServersByName name with
  | .error e => .error e
  | .ok servers =>
    match one (servers.filter fun item => item.name == name)
        "Server with given name or ID not found"
        "Too many servers found with given name" with
    | .error e => .error e
    | .ok item => get_server_by_id s item.id

/-- `get_server` (base.rs:72-76): try the identifier fetch, falling back to
name resolution only on the not-found condition. -/
def get_server (s : Session) (id_or_name : String) : Except OsError Server :=
  if_not_found_then (get_server_by_id s id_or_name)
    (fun _ => get_server_by_name s id_or_name)

/-- The version `create_keypair` (base.rs:150-154) attaches: the fixed keypair
type gate 2.2 whenever the request carries a `key_type`, otherwise none. -/
def keypair_request_version (request : KeyPairCreate) : Option ApiVersion :=
  if request.key_type.isSome then some API_VERSION_KEYPAIR_TYPE else none

/-- `create_keypair` (base.rs:149-165): POST the keypair body with the version
computed by `keypair_request_version`. -/
def create_keypair (s : Session) (request : KeyPairCreate) :
    Except OsError KeyPair :=
  s.postKeypair request (keypair_request_version request)

/-- `HashMap::insert` on an association list: the new binding shadows any
previous binding of the same key. -/
def mapInsert (m : List (String × Json)) (k : String) (v : Json) :
    List (String × Json) :=
  (k, v) :: m.filter fun p => !(p.1 == k)

/-- `server_action_with_args` (base.rs:359-382): build a body by inserting the
single binding action ↦ args into an empty map and POST it to the server's
action sub-endpoint. -/
def server_action_with_args (s : Session) (id action : String) (args : Json) :
    Except OsError Unit :=
  s.postServerAction ["servers", id, "action"] (mapInsert [] action args)

/-- `server_simple_action` (base.rs:118-124): `server_action_with_args` with a
null payload. -/
def server_simple_action (s : Session) (id action : String) :
    Except OsError Unit :=
  server_action_with_args s id action Json.null

/-! ## Order lemmas for `ApiVersion.le` -/

theorem ApiVersion.le_iff (a b : ApiVersion) :
    ApiVersion.le a b = true ↔
      a.major < b.major ∨ (a.major = b.major ∧ a.minor ≤ b.minor) := by
  simp [ApiVersion.le]

theorem ApiVersion.le_refl (a : ApiVersion) : ApiVersion.le a a = true := by
  rw [ApiVersion.le_iff]
  omega

theorem ApiVersion.le_trans {a b c : ApiVersion} (h1 : ApiVersion.le a b = true)
    (h2 : ApiVersion.le b c = true) : ApiVersion.le a c = true := by
  rw [ApiVersion.le_iff] at h1 h2 ⊢
  omega

theorem ApiVersion.le_total (a b : ApiVersion) :
    ApiVersion.le a b = true ∨ ApiVersion.le b a = true := by
  rw [ApiVersion.le_iff, ApiVersion.le_iff]
  omega

theorem ApiVersion.le_antisymm {a b : ApiVersion}
    (h1 : ApiVersion.le a b = true) (h2 : ApiVersion.le b a = true) : a = b := by
  rw [ApiVersion.le_iff] at h1 h2
  obtain ⟨am, an⟩ := a
  obtain ⟨bm, bn⟩ := b
  simp_all
  omega

/-! ## Maximum lemmas -/

theorem maxFrom_spec (l : List ApiVersion) : ∀ m : ApiVersion,
    (maxFrom m l = m ∨ maxFrom m l ∈ l) ∧
    ApiVersion.le m (maxFrom m l) = true ∧
    ∀ v ∈ l, ApiVersion.le v (maxFrom m l) = true := by
  induction l with
  | nil =>
    intro m
    exact ⟨Or.inl rfl, ApiVersion.le_refl m, by simp⟩
  | cons a t ih =>
    intro m
    simp only [maxFrom]
    by_cases h : ApiVersion.le m a = true
    · rw [if_pos h]
      obtain ⟨hmem, hle, hall⟩ := ih a
      refine ⟨?_, ?_, ?_⟩
      · rcases hmem with h1 | h1
        · rw [h1]
          exact Or.inr (List.mem_cons_self a t)
        · exact Or.inr (List.mem_cons_of_mem a h1)
      · exact ApiVersion.le_trans h hle
      · intro v hv
        rcases List.mem_cons.mp hv with h1 | h1
        · rw [h1]
          exact hle
        · exact hall v h1
    · rw [if_neg h]
      have ham : ApiVersion.le a m = true := by
        rcases ApiVersion.le_total m a with h1 | h1
        · exact absurd h1 h
        · exact h1
      obtain ⟨hmem, hle, hall⟩ := ih m
      refine ⟨?_, hle, ?_⟩
      · rcases hmem with h1 | h1
        · exact Or.inl h1
        · exact Or.inr (List.mem_cons_of_mem a h1)
      · intro v hv
        rcases List.mem_cons.mp hv with h1 | h1
        · rw [h1]
          exact ApiVersion.le_trans ham hle
        · exact hall v h1

theorem listMax_spec {l : List ApiVersion} {m : ApiVersion}
    (h : listMax l = some m) :
    m ∈ l ∧ ∀ v ∈ l, ApiVersion.le v m = true := by
  cases l with
  | nil => simp [listMax] at h
  | cons a t =>
    simp only [listMax, Option.some.injEq] at h
    obtain ⟨hmem, hle, hall⟩ := maxFrom_spec t a
    rw [← h]
    constructor
    · rcases hmem with h1 | h1
      · rw [h1]
        exact List.mem_cons_self a t
      · exact List.mem_cons_of_mem a h1
    · intro v hv
      rcases List.mem_cons.mp hv with h1 | h1
      · rw [h1]
        exact hle
      · exact hall v h1

theorem listMax_ne_nil {l : List ApiVersion} (h : l ≠ []) :
    ∃ m, listMax l = some m := by
  cases l with
  | nil => exact absurd rfl h
  | cons a t => exact ⟨maxFrom a t, rfl⟩

/-! ## Concrete sessions used to evaluate the theorems -/

/-- Placeholder error for collaborator calls a scenario never performs. -/
def unreachedErr : OsError := ⟨.transportError, "unused"⟩

/-- The spec's scenario registry: supported set {2.1, 2.19, 2.55}. -/
def scenarioInfo : ServiceInfo := ⟨[⟨2, 1⟩, ⟨2, 19⟩, ⟨2, 55⟩]⟩

/-- A session whose discovery succeeds with `scenarioInfo`. -/
def scenarioSession : Session where
  serviceInfo := .ok scenarioInfo
  fetchFlavor := fun _ _ => .error unreachedErr
  listFlavors := .error unreachedErr
  fetchServer := fun _ _ => .error unreachedErr
  listServersByName := fun _ => .error unreachedErr
  postKeypair := fun _ _ => .error unreachedErr
  postServerAction := fun _ _ => .error unreachedErr

/-- The discovery failure returned when the catalog entry is missing. -/
def catalogMissingErr : OsError := ⟨.discoveryError, "catalog entry for compute missing"⟩

/-- A session whose discovery fails. -/
def discoveryFailSession : Session where
  serviceInfo := .error catalogMissingErr
  fetchFlavor := fun _ _ => .error unreachedErr
  listFlavors := .error unreachedErr
  fetchServer := fun _ _ => .error unreachedErr
  listServersByName := fun _ => .error unreachedErr
  postKeypair := fun _ _ => .error unreachedErr
  postServerAction := fun _ _ => .error unreachedErr

/-! ## Claim theorems -/

/-- C1: whenever discovery succeeds and at least one candidate is supported,
`pick_compute_api_version` returns `some` of a candidate that is supported and
maximal (under the lexicographic order) among the supported candidates, and
the result is invariant under any permutation of the candidate list. -/
theorem pick_returns_max_supported (s : Session) (info : ServiceInfo)
    (versions : List ApiVersion) (v : ApiVersion)
    (hinfo : s.serviceInfo = .ok info)
    (hmem : v ∈ versions)
    (hsup : info.supports_api_version v = true) :
    ∃ m, pick_compute_api_version s versions = .ok (some m) ∧
      m ∈ versions ∧ info.supports_api_version m = true ∧
      (∀ u ∈ versions, info.supports_api_version u = true →
        ApiVersion.le u m = true) ∧
      ∀ versions' : List ApiVersion, versions.Perm versions' →
        pick_compute_api_version s versions' = .ok (some m) := by
  have hvf : v ∈ versions.filter (fun item => info.supports_api_version item) :=
    List.mem_filter.mpr ⟨hmem, hsup⟩
  have hne : versions.filter (fun item => info.supports_api_version item) ≠ [] := by
    intro hnil
    rw [hnil] at hvf
    exact absurd hvf (List.not_mem_nil v)
  obtain ⟨m, hm⟩ := listMax_ne_nil hne
  obtain ⟨hmemf, hall⟩ := listMax_spec hm
  refine ⟨m, ?_, ?_, ?_, ?_, ?_⟩
  · simp only [pick_compute_api_version, hinfo, hm]
  · exact (List.mem_filter.mp hmemf).1
  · exact (List.mem_filter.mp hmemf).2
  · intro u hu hsu
    exact hall u (List.mem_filter.mpr ⟨hu, hsu⟩)
  · intro versions' hperm
    have hpf := hperm.filter (fun item => info.supports_api_version item)
    have hvf' : v ∈ versions'.filter (fun item => info.supports_api_version item) :=
      hpf.mem_iff.mp hvf
    have hne' : versions'.filter (fun item => info.supports_api_version item) ≠ [] := by
      intro hnil
      rw [hnil] at hvf'
      exact absurd hvf' (List.not_mem_nil v)
    obtain ⟨m', hm'⟩ := listMax_ne_nil hne'
    obtain ⟨hmemf', hall'⟩ := listMax_spec hm'
    have h1 : ApiVersion.le m' m = true := hall m' (hpf.mem_iff.mpr hmemf')
    have h2 : ApiVersion.le m m' = true := hall' m (hpf.mem_iff.mp hmemf)
    have heq : m' = m := ApiVersion.le_antisymm h1 h2
    rw [heq] at hm'
    simp only [pick_compute_api_version, hinfo, hm']

/-- C1 witness: the spec's scenario — supported {2.1, 2.19, 2.55}, candidates
[2.19, 2.61] — negotiates exactly 2.19, and the characterizing properties
hold there. -/
theorem pick_returns_max_supported_witness :
    pick_compute_api_version scenarioSession [⟨2, 19⟩, ⟨2, 61⟩] =
      .ok (some ⟨2, 19⟩) ∧
    ∃ m, pick_compute_api_version scenarioSession [⟨2, 19⟩, ⟨2, 61⟩] =
        .ok (some m) ∧
      m ∈ ([⟨2, 19⟩, ⟨2, 61⟩] : List ApiVersion) ∧
      scenarioInfo.supports_api_version m = true ∧
      (∀ u ∈ ([⟨2, 19⟩, ⟨2, 61⟩] : List ApiVersion),
        scenarioInfo.supports_api_version u = true → ApiVersion.le u m = true) ∧
      ∀ versions' : List ApiVersion,
        List.Perm [⟨2, 19⟩, ⟨2, 61⟩] versions' →
        pick_compute_api_version scenarioSession versions' = .ok (some m) :=
  ⟨rfl, pick_returns_max_supported scenarioSession scenarioInfo
    [⟨2, 19⟩, ⟨2, 61⟩] ⟨2, 19⟩ rfl (by decide) (by decide)⟩

/-- C7: when discovery succeeds and no candidate is supported,
`pick_compute_api_version` returns `Ok none` (no constraint, not an error);
when discovery fails, both `pick_compute_api_version` and
`supports_compute_api_version` propagate the discovery error unchanged. -/
theorem pick_unsupported_and_discovery (s : Session)
    (versions : List ApiVersion) (v : ApiVersion) :
    (∀ info, s.serviceInfo = .ok info →
      (∀ u ∈ versions, info.supports_api_version u = false) →
      pick_compute_api_version s versions = .ok none) ∧
    (∀ e, s.serviceInfo = .error e →
      pick_compute_api_version s versions = .error e ∧
      supports_compute_api_version s v = .error e) := by
  constructor
  · intro info hinfo hnone
    have hfil : versions.filter (fun item => info.supports_api_version item) = [] := by
      apply List.filter_eq_nil_iff.mpr
      intro a ha
      simp [hnone a ha]
    simp [pick_compute_api_version, hinfo, hfil, listMax]
  · intro e he
    constructor
    · simp [pick_compute_api_version, he]
    · simp [supports_compute_api_version, he]

/-- C7 witness: candidate 2.61 is unsupported by the scenario registry and the
result is `Ok none`; against the failed-discovery session both negotiation
entry points propagate the catalog error. -/
theorem pick_unsupported_and_discovery_witness :
    pick_compute_api_version scenarioSession [⟨2, 61⟩] = .ok none ∧
    pick_compute_api_version discoveryFailSession [⟨2, 61⟩] =
      .error catalogMissingErr ∧
    supports_compute_api_version discoveryFailSession ⟨2, 1⟩ =
      .error catalogMissingErr :=
  ⟨(pick_unsupported_and_discovery scenarioSession [⟨2, 61⟩] ⟨2, 1⟩).1
      scenarioInfo rfl (by decide),
   ((pick_unsupported_and_discovery discoveryFailSession [⟨2, 61⟩] ⟨2, 1⟩).2
      catalogMissingErr rfl).1,
   ((pick_unsupported_and_discovery discoveryFailSession [⟨2, 61⟩] ⟨2, 1⟩).2
      catalogMissingErr rfl).2⟩

/-- C8: when discovery succeeds, `supports_compute_api_version` returns
`Ok true` exactly when the version is in the supported set and `Ok false`
exactly otherwise, and `supports_keypair_pagination` is
`supports_compute_api_version` at version 2.35. -/
theorem supports_iff_membership (s : Session) (info : ServiceInfo)
    (v : ApiVersion) (hinfo : s.serviceInfo = .ok info) :
    (supports_compute_api_version s v = .ok true ↔
      info.supports_api_version v = true) ∧
    (supports_compute_api_version s v = .ok false ↔
      info.supports_api_version v = false) ∧
    supports_keypair_pagination s = supports_compute_api_version s ⟨2, 35⟩ := by
  refine ⟨?_, ?_, rfl⟩
  · simp [supports_compute_api_version, hinfo]
  · simp [supports_compute_api_version, hinfo]

/-- C8 witness: against the scenario registry, 2.19 is reported supported,
2.61 unsupported, and keypair pagination support is exactly the 2.35 query. -/
theorem supports_iff_membership_witness :
    supports_compute_api_version scenarioSession ⟨2, 19⟩ = .ok true ∧
    supports_compute_api_version scenarioSession ⟨2, 61⟩ = .ok false ∧
    supports_keypair_pagination scenarioSession =
      supports_compute_api_version scenarioSession ⟨2, 35⟩ := by
  have h1 := supports_iff_membership scenarioSession scenarioInfo ⟨2, 19⟩ rfl
  have h2 := supports_iff_membership scenarioSession scenarioInfo ⟨2, 61⟩ rfl
  exact ⟨h1.1.mpr (by decide), h2.2.1.mpr (by decide), h1.2.2⟩

/-- C10: the empty candidate list is not an error — whenever discovery
succeeds, `pick_compute_api_version` on `[]` returns `Ok none`. -/
theorem pick_empty_candidates (s : Session) (info : ServiceInfo)
    (hinfo : s.serviceInfo = .ok info) :
    pick_compute_api_version s [] = .ok none := by
  simp [pick_compute_api_version, hinfo, listMax]

/-- C10 witness: the empty candidate list against the scenario session. -/
theorem pick_empty_candidates_witness :
    pick_compute_api_version scenarioSession [] = .ok none :=
  pick_empty_candidates scenarioSession scenarioInfo rfl

/-! ## Cardinality-check lemmas for `one` -/

theorem one_nil {α : Type} (m1 m2 : String) :
    one ([] : List α) m1 m2 = .error ⟨.notFound, m1⟩ := rfl

theorem one_singleton {α : Type} (x : α) (m1 m2 : String) :
    one [x] m1 m2 = .ok x := rfl

theorem one_two_or_more {α : Type} {items : List α} (m1 m2 : String)
    (h : 2 ≤ items.length) :
    one items m1 m2 = .error ⟨.ambiguousResult, m2⟩ := by
  cases items with
  | nil => simp at h
  | cons a t =>
    cases t with
    | nil => simp at h
    | cons b r => rfl

/-! ## Further concrete sessions -/

/-- A flavor returned by a direct identifier fetch. -/
def okFlavor : Flavor := ⟨"f1", "flavor-small"⟩

/-- A non-not-found transport failure. -/
def transport500 : OsError := ⟨.transportError, "HTTP 500"⟩

/-- A session whose identifier fetches hit directly: flavors succeed, servers
fail with a transport error; the listings are never reached. -/
def directHitSession : Session where
  serviceInfo := .ok scenarioInfo
  fetchFlavor := fun _ _ => .ok okFlavor
  listFlavors := .error unreachedErr
  fetchServer := fun _ _ => .error transport500
  listServersByName := fun _ => .error unreachedErr
  postKeypair := fun _ _ => .error unreachedErr
  postServerAction := fun _ _ => .error unreachedErr

/-- A session whose listings hold two resources both named "web". -/
def dupSession : Session where
  serviceInfo := .ok scenarioInfo
  fetchFlavor := fun _ _ => .error unreachedErr
  listFlavors := .ok [⟨"id-a", "web"⟩, ⟨"id-b", "web"⟩]
  fetchServer := fun _ _ => .error unreachedErr
  listServersByName := fun _ => .ok [⟨"id-a", "web"⟩, ⟨"id-b", "web"⟩]
  postKeypair := fun _ _ => .error unreachedErr
  postServerAction := fun _ _ => .error unreachedErr

/-- A session whose listings hold "web-1" and "web-2" and whose identifier
fetches succeed on the listed identifiers. -/
def twoNamesSession : Session where
  serviceInfo := .ok scenarioInfo
  fetchFlavor := fun id _ => .ok ⟨id, "web-1"⟩
  listFlavors := .ok [⟨"id-web1", "web-1"⟩, ⟨"id-web2", "web-2"⟩]
  fetchServer := fun id _ => .ok ⟨id, "web-1"⟩
  listServersByName := fun _ => .ok [⟨"id-web1", "web-1"⟩, ⟨"id-web2", "web-2"⟩]
  postKeypair := fun _ _ => .error unreachedErr
  postServerAction := fun _ _ => .error unreachedErr

/-- The not-found failure of a direct identifier fetch. -/
def notFound404 : OsError := ⟨.notFound, "HTTP 404"⟩

/-- A session where identifier fetches miss (HTTP 404) and the listings hold
no resource named "ghost". -/
def missSession : Session where
  serviceInfo := .ok scenarioInfo
  fetchFlavor := fun _ _ => .error notFound404
  listFlavors := .ok []
  fetchServer := fun _ _ => .error notFound404
  listServersByName := fun _ => .ok [⟨"id-x", "other"⟩]
  postKeypair := fun _ _ => .error unreachedErr
  postServerAction := fun _ _ => .error unreachedErr

/-- C2: the resolver tries the identifier fetch first — a successful fetch is
returned as-is, a non-not-found failure propagates unchanged, and only the
not-found condition hands over to name-based resolution. -/
theorem resolver_prefers_id_fetch (s : Session) (tok : String) :
    (∀ f, get_flavor_by_id s tok = .ok f → get_flavor s tok = .ok f) ∧
    (∀ e, get_flavor_by_id s tok = .error e → e.kind ≠ .notFound →
      get_flavor s tok = .error e) ∧
    (∀ e, get_flavor_by_id s tok = .error e → e.kind = .notFound →
      get_flavor s tok = get_flavor_by_name s tok) ∧
    (∀ sv, get_server_by_id s tok = .ok sv → get_server s tok = .ok sv) ∧
    (∀ e, get_server_by_id s tok = .error e → e.kind ≠ .notFound →
      get_server s tok = .error e) ∧
    (∀ e, get_server_by_id s tok = .error e → e.kind = .notFound →
      get_server s tok = get_server_by_name s tok) := by
  refine ⟨?_, ?_, ?_, ?_, ?_, ?_⟩
  · intro f h
    simp [get_flavor, if_not_found_then, h]
  · intro e h hk
    simp [get_flavor, if_not_found_then, h, hk]
  · intro e h hk
    simp [get_flavor, if_not_found_then, h, hk]
  · intro sv h
    simp [get_server, if_not_found_then, h]
  · intro e h hk
    simp [get_server, if_not_found_then, h, hk]
  · intro e h hk
    simp [get_server, if_not_found_then, h, hk]

/-- C2 witness: a direct flavor hit is returned without consulting the
listing (which would fail), and a transport 500 on the server fetch
propagates unchanged without attempting the name fallback. -/
theorem resolver_prefers_id_fetch_witness :
    get_flavor directHitSession "f1" = .ok okFlavor ∧
    get_server directHitSession "abc" = .error transport500 := by
  have h1 := resolver_prefers_id_fetch directHitSession "f1"
  have h2 := resolver_prefers_id_fetch directHitSession "abc"
  exact ⟨h1.1 okFlavor rfl, h2.2.2.2.2.1 transport500 rfl (by decide)⟩

/-- C3: whenever the listing succeeds and two or more of its items bear
exactly the requested name, name resolution fails with the
ambiguous-result ("too many") error, whatever the list order. -/
theorem resolver_ambiguous (s : Session) (tok : String) :
    (∀ items, s.listFlavors = .ok items →
      2 ≤ (items.filter fun item => item.name == tok).length →
      get_flavor_by_name s tok =
        .error ⟨.ambiguousResult, "Too many flavors found with given name"⟩) ∧
    (∀ items, s.listServersByName tok = .ok items →
      2 ≤ (items.filter fun item => item.name == tok).length →
      get_server_by_name s tok =
        .error ⟨.ambiguousResult, "Too many servers found with given name"⟩) := by
  constructor
  · intro items hlist hlen
    simp only [get_flavor_by_name, hlist]
    rw [one_two_or_more _ _ hlen]
  · intro items hlist hlen
    simp only [get_server_by_name, hlist]
    rw [one_two_or_more _ _ hlen]

/-- C3 witness: two flavors and two servers named "web" make the lookup of
"web" ambiguous. -/
theorem resolver_ambiguous_witness :
    get_flavor_by_name dupSession "web" =
      .error ⟨.ambiguousResult, "Too many flavors found with given name"⟩ ∧
    get_server_by_name dupSession "web" =
      .error ⟨.ambiguousResult, "Too many servers found with given name"⟩ := by
  have h := resolver_ambiguous dupSession "web"
  exact ⟨h.1 [⟨"id-a", "web"⟩, ⟨"id-b", "web"⟩] rfl (by decide),
         h.2 [⟨"id-a", "web"⟩, ⟨"id-b", "web"⟩] rfl (by decide)⟩

/-- C5: whenever the listing succeeds and exactly one item bears the
requested name, name resolution returns the result of the second fetch by
that item's identifier — not the summary record from the listing. -/
theorem resolver_single_match_refetches (s : Session) (tok : String) :
    (∀ items i, s.listFlavors = .ok items →
      items.filter (fun item => item.name == tok) = [i] →
      get_flavor_by_name s tok = get_flavor_by_id s i.id) ∧
    (∀ items i, s.listServersByName tok = .ok items →
      items.filter (fun item => item.name == tok) = [i] →
      get_server_by_name s tok = get_server_by_id s i.id) := by
  constructor
  · intro items i hlist hfil
    simp [get_flavor_by_name, hlist, hfil, one_singleton]
  · intro items i hlist hfil
    simp [get_server_by_name, hlist, hfil, one_singleton]

/-- C5 witness: with "web-1" and "web-2" listed, looking up "web-1" resolves
to the fetch by identifier "id-web1". -/
theorem resolver_single_match_refetches_witness :
    get_flavor_by_name twoNamesSession "web-1" =
      get_flavor_by_id twoNamesSession "id-web1" ∧
    get_server_by_name twoNamesSession "web-1" =
      get_server_by_id twoNamesSession "id-web1" := by
  have h := resolver_single_match_refetches twoNamesSession "web-1"
  exact ⟨h.1 [⟨"id-web1", "web-1"⟩, ⟨"id-web2", "web-2"⟩] ⟨"id-web1", "web-1"⟩
           rfl (by decide),
         h.2 [⟨"id-web1", "web-1"⟩, ⟨"id-web2", "web-2"⟩] ⟨"id-web1", "web-1"⟩
           rfl (by decide)⟩

/-- C6: when the identifier fetch fails with not-found and the listing holds
no item with exactly the requested name, the resolver fails with the
not-found error, not with ambiguity and not with a success. -/
theorem resolver_zero_matches (s : Session) (tok : String) :
    (∀ e items, get_flavor_by_id s tok = .error e → e.kind = .notFound →
      s.listFlavors = .ok items →
      items.filter (fun item => item.name == tok) = [] →
      get_flavor s tok =
        .error ⟨.notFound, "Flavor with given name or ID not found"⟩) ∧
    (∀ e items, get_server_by_id s tok = .error e → e.kind = .notFound →
      s.listServersByName tok = .ok items →
      items.filter (fun item => item.name == tok) = [] →
      get_server s tok =
        .error ⟨.notFound, "Server with given name or ID not found"⟩) := by
  constructor
  · intro e items hid hkind hlist hfil
    simp only [get_flavor, if_not_found_then, hid, hkind, if_pos]
    simp [get_flavor_by_name, hlist, hfil, one_nil]
  · intro e items hid hkind hlist hfil
    simp only [get_server, if_not_found_then, hid, hkind, if_pos]
    simp [get_server_by_name, hlist, hfil, one_nil]

/-- C6 witness: identifier fetches 404 and no listed item is named "ghost",
so both resolvers report the zero-matches not-found error. -/
theorem resolver_zero_matches_witness :
    get_flavor missSession "ghost" =
      .error ⟨.notFound, "Flavor with given name or ID not found"⟩ ∧
    get_server missSession "ghost" =
      .error ⟨.notFound, "Server with given name or ID not found"⟩ := by
  have h := resolver_zero_matches missSession "ghost"
  exact ⟨h.1 notFound404 [] rfl rfl rfl rfl,
         h.2 notFound404 [⟨"id-x", "other"⟩] rfl rfl rfl (by decide)⟩

/-- C9: `server_action_with_args` posts to the server's action sub-endpoint a
body that is the single-binding map from the action name to the arguments,
and `server_simple_action` is exactly `server_action_with_args` with a null
payload. -/
theorem server_action_single_key (s : Session) (id act : String) (args : Json) :
    server_action_with_args s id act args =
      s.postServerAction ["servers", id, "action"] [(act, args)] ∧
    server_simple_action s id act =
      server_action_with_args s id act Json.null :=
  ⟨rfl, rfl⟩

/-- A registry supporting only version 2.1 — in particular not 2.2. -/
def lowVersionInfo : ServiceInfo := ⟨[⟨2, 1⟩]⟩

/-- A session whose discovery reports only version 2.1 as supported. -/
def lowVersionSession : Session where
  serviceInfo := .ok lowVersionInfo
  fetchFlavor := fun _ _ => .error unreachedErr
  listFlavors := .error unreachedErr
  fetchServer := fun _ _ => .error unreachedErr
  listServersByName := fun _ => .error unreachedErr
  postKeypair := fun _ _ => .ok ⟨"mykey"⟩
  postServerAction := fun _ _ => .error unreachedErr

/-- C4 counterexample: against a registry supporting only {2.1},
`create_keypair` with a `key_type` still posts with the fixed version 2.2,
which discovery has not reported as supported — the attached version is not
drawn from the supported set. -/
theorem create_keypair_version_outside_registry :
    keypair_request_version ⟨"mykey", some "ssh"⟩ = some ⟨2, 2⟩ ∧
    lowVersionInfo.supports_api_version ⟨2, 2⟩ = false ∧
    lowVersionSession.serviceInfo = .ok lowVersionInfo ∧
    create_keypair lowVersionSession ⟨"mykey", some "ssh"⟩ =
      lowVersionSession.postKeypair ⟨"mykey", some "ssh"⟩ (some ⟨2, 2⟩) :=
  ⟨rfl, by decide, rfl, rfl⟩

/-- C4 amended: every version selected by `pick_compute_api_version` is an
element of the supported set, so requests whose version comes from the
negotiator satisfy the invariant; `create_keypair`, however, attaches the
fixed version 2.2 whenever the request carries a `key_type`, without
consulting the registry. -/
theorem negotiated_version_always_supported (s : Session) (info : ServiceInfo)
    (versions : List ApiVersion) (v : ApiVersion) (req : KeyPairCreate)
    (hinfo : s.serviceInfo = .ok info)
    (hpick : pick_compute_api_version s versions = .ok (some v))
    (hkt : req.key_type.isSome = true) :
    info.supports_api_version v = true ∧
    keypair_request_version req = some API_VERSION_KEYPAIR_TYPE := by
  constructor
  · simp only [pick_compute_api_version, hinfo, Except.ok.injEq] at hpick
    exact (List.mem_filter.mp (listMax_spec hpick).1).2
  · simp [keypair_request_version, hkt]

/-- C4 amended witness: 2.19 negotiated from [2.19, 2.61] against the
scenario registry is supported, and a keypair request with a key type gets
the fixed version 2.2. -/
theorem negotiated_version_always_supported_witness :
    scenarioInfo.supports_api_version ⟨2, 19⟩ = true ∧
    keypair_request_version ⟨"mykey", some "ssh"⟩ =
      some API_VERSION_KEYPAIR_TYPE :=
  negotiated_version_always_supported scenarioSession scenarioInfo
    [⟨2, 19⟩, ⟨2, 61⟩] ⟨2, 19⟩ ⟨"mykey", some "ssh"⟩ rfl rfl rfl

end Openstack
